import Mathlib

/-!
Verification development for the news-crawler repository.

Each definition is a shallow embedding of one Python function of the
source tree (`request_manager.py`, `adaptive_manager.py`,
`throttle_manager.py`, `plugin_manager.py`, `fingerprint_manager.py`,
`news_crawler.py`).  Machine floats are modelled by `ℚ`, Python
`str | None` values by `Option String`, and sets/queues by lists.
Random draws (jitter, user agents, viewport sizes) are passed as
explicit parameters ranging over the support of the corresponding
distribution.
-/

namespace News

/-- Substring test on character lists: `subListChars n h` is true iff `n`
occurs as a contiguous sublist of `h` (Python's `in` on strings). -/
def subListChars (n : List Char) : List Char → Bool
  | [] => n.isEmpty
  | c :: rest => n.isPrefixOf (c :: rest) || subListChars n rest

/-- Python `needle in hay` for strings. -/
def containsSub (needle hay : String) : Bool :=
  subListChars needle.toList hay.toList

/-- Python `content.lower()`, as its character list (`str.lower` maps each
character to its lower-case form). -/
def lowerChars (s : String) : List Char :=
  s.toList.map Char.toLower

/-- Python `"captcha" in content.lower()`. -/
def hasCaptcha (content : String) : Bool :=
  subListChars "captcha".toList (lowerChars content)

/-- Python `"cloudflare" in content.lower()`. -/
def hasCloudflare (content : String) : Bool :=
  subListChars "cloudflare".toList (lowerChars content)

/-- Python truthiness of a `str | None` value (`None` and `""` are falsy). -/
def pyTruthy : Option String → Bool
  | none => false
  | some s => !s.isEmpty

/-! ## RequestManager (`request_manager.py`) -/

/-- State of `RequestManager.retry_stats`. -/
structure RetryStats where
  success : Nat
  failure : Nat
deriving DecidableEq, Repr

/-- The `(status, content)` pair captured by one attempt of
`RequestManager.send_request`: `status = response.status if response else 0`
and `content = await page.content() if response and response.ok else ""`. -/
structure AttemptResp where
  status : Int
  content : String
deriving DecidableEq, Repr

/-- Embeds `RequestManager._should_retry`, evaluated on the response captured in the
context (both keys are always present at the call site).  True iff
`status in [429, 503, 504]`, or `status >= 400`, or `len(content) < 50`, or
`"captcha" in content.lower()`. -/
def shouldRetry (r : AttemptResp) : Bool :=
  (r.status = 429 || r.status = 503 || r.status = 504)
    || (400 ≤ r.status)
    || (r.content.length < 50)
    || hasCaptcha r.content

/-- The retry loop of `RequestManager.send_request`.  `resp k` is the
response captured by the (k+1)-th attempt (`page.goto` outcomes are inputs
of the model; exceptions thrown by `goto` lead to the same control flow as a
retryable response and are subsumed by it).  `k` is the running value of
`self._attempts`; the backoff sleeps do not affect the result and are
elided here (they are modelled by `applyRetryDelayPre`).  Returns the
returned content, the updated `retry_stats` and the number of attempts
performed. -/
def sendRequestFrom (resp : Nat → AttemptResp) (maxAttempts : Nat) (k : Nat)
    (stats : RetryStats) : Option String × RetryStats × Nat :=
  if k < maxAttempts then
    let r := resp k
    if shouldRetry r then
      if maxAttempts ≤ k + 1 then
        (none, { stats with failure := stats.failure + 1 }, k + 1)
      else
        sendRequestFrom resp maxAttempts (k + 1) stats
    else
      (some r.content, { stats with success := stats.success + 1 }, k + 1)
  else
    (none, stats, k)
termination_by maxAttempts - k
decreasing_by simp_wf; omega

/-- Embeds `RequestManager.send_request` (entered with `self._attempts = 0`). -/
def sendRequest (resp : Nat → AttemptResp) (maxAttempts : Nat)
    (stats : RetryStats) : Option String × RetryStats × Nat :=
  sendRequestFrom resp maxAttempts 0 stats

/-- The behaviour of `send_request` as the claim states it: the first
attempt whose response fails the retry predicate has its content returned
(success counter bumped, that many attempts made); if every one of the
`maxAttempts` attempts satisfies the predicate, `None` is returned, the
failure counter is bumped, and exactly `maxAttempts` attempts were made. -/
def sendRequestSpec (resp : Nat → AttemptResp) (maxAttempts : Nat)
    (stats : RetryStats) : Option String × RetryStats × Nat :=
  match (List.range maxAttempts).find? (fun k => !shouldRetry (resp k)) with
  | some k => (some (resp k).content, { stats with success := stats.success + 1 }, k + 1)
  | none => (none, { stats with failure := stats.failure + 1 }, maxAttempts)

/-- Configuration of the `RequestManager` delays (constructor defaults:
`base_delay = 1.0`, `max_delay = 10.0`, `backoff_factor = 2.0`). -/
structure RequestManagerCfg where
  baseDelay : ℚ
  maxDelay : ℚ
  backoffFactor : ℚ
deriving DecidableEq, Repr

/-- The pre-jitter delay computed by `RequestManager._apply_retry_delay`
when `self._attempts = n` (the call for the n-th failed attempt, 1-indexed):
`min(base_delay * backoff_factor ** (n - 1), max_delay)`. -/
def applyRetryDelayPre (rm : RequestManagerCfg) (n : Nat) : ℚ :=
  min (rm.baseDelay * rm.backoffFactor ^ (n - 1)) rm.maxDelay

/-- The slept delay of `_apply_retry_delay`: pre-jitter delay plus the
`random.uniform(0, 0.5)` draw, passed here as the parameter `jitter`. -/
def applyRetryDelayTotal (rm : RequestManagerCfg) (n : Nat) (jitter : ℚ) : ℚ :=
  applyRetryDelayPre rm n + jitter

/-! ## AdaptiveManager (`adaptive_manager.py`) -/

/-- The feedback dict built by `AdaptiveManager.monitor_response`. -/
structure Feedback where
  slow_down : Bool
  speed_up : Bool
  retry_needed : Bool
  captcha_detected : Bool
  waf_detected : Bool
deriving DecidableEq, Repr

/-- A response dict as produced by `NewsCrawler.fetch_content` (the only
producer whose dicts reach `monitor_response` / `_should_retry`): the three
keys are always present; `content` holds a `str | None` (it is the raw
return of `send_request`), modelled as `Option String` with `none` for
Python `None`. -/
structure MResp where
  status : Int
  content : Option String
  loadTime : ℚ
deriving DecidableEq, Repr

/-- State of the `AdaptiveManager`: configuration (`min_delay`, `max_delay`,
`adjust_threshold_slow`, `adjust_threshold_fast`, `random_jitter`;
defaults 1.0, 5.0, 2.0, 0.5, 0.2), the mutable `_current_delay`
(initialised to `min_delay`) and the `adjustments` counters. -/
structure AdaptState where
  minDelay : ℚ
  maxDelay : ℚ
  currentDelay : ℚ
  adjustThresholdSlow : ℚ
  adjustThresholdFast : ℚ
  randomJitter : ℚ
  delayIncreased : Nat
  delayDecreased : Nat
deriving DecidableEq, Repr

/-- The status/load-time `if/elif` chain of `monitor_response`, producing
the feedback flags before the content checks. -/
def statusFlags (st : AdaptState) (status : Int) (loadTime : ℚ) : Feedback :=
  if status = 429 then ⟨true, false, true, false, false⟩
  else if status = 403 then ⟨false, false, true, false, true⟩
  else if 400 ≤ status then ⟨false, false, true, false, false⟩
  else if status = 200 ∧ loadTime < st.adjustThresholdFast then
    ⟨false, true, false, false, false⟩
  else if status = 200 ∧ st.adjustThresholdSlow < loadTime then
    ⟨true, false, false, false, false⟩
  else ⟨false, false, false, false, false⟩

/-- The two content checks at the end of `monitor_response`: `"captcha"`
sets `captcha_detected` and `slow_down`, `"cloudflare"` sets
`waf_detected`. -/
def contentFlags (fb : Feedback) (content : String) : Feedback :=
  let fb1 :=
    if hasCaptcha content then { fb with captcha_detected := true, slow_down := true }
    else fb
  if hasCloudflare content then { fb1 with waf_detected := true } else fb1

/-- Embeds `AdaptiveManager.monitor_response`.  A `none` input models a falsy
`response` argument (`None` or `{}`).  When the `content` key holds Python
`None` (as happens when `send_request` returned `None`), the expression
`content.lower()` raises `AttributeError`, modelled by `.error`; the
status branches executed before it have no observable effect. -/
def monitorResponse (st : AdaptState) (response : Option MResp) :
    Except String Feedback :=
  match response with
  | none => .ok ⟨true, false, true, false, false⟩
  | some r =>
    let fb := statusFlags st r.status r.loadTime
    match r.content with
    | none => .error "AttributeError: NoneType object has no attribute lower"
    | some c => .ok (contentFlags fb c)

/-- The feedback flags exactly as claim C4 states them, rule by rule:
429 ⇒ slow_down+retry; 403 ⇒ waf+retry; other ≥ 400 ⇒ retry; 200 and fast
⇒ speed_up; 200 and slow ⇒ slow_down; captcha content ⇒ captcha+slow_down;
cloudflare content ⇒ waf; nothing else. -/
def monitorSpecFlags (st : AdaptState) (status : Int) (content : String)
    (loadTime : ℚ) : Feedback :=
  { slow_down := decide (status = 429)
      || (decide (status = 200) && decide (st.adjustThresholdSlow < loadTime))
      || hasCaptcha content
    speed_up := decide (status = 200) && decide (loadTime < st.adjustThresholdFast)
    retry_needed := decide (status = 429) || decide (status = 403) || decide (400 ≤ status)
    captcha_detected := hasCaptcha content
    waf_detected := decide (status = 403) || hasCloudflare content }

/-- The per-URL crawl context dict (`process_single_url` creates it with
`url`, `session_id`, `attempts = 0`, `max_attempts = 3`; later code adds
`response`, `stop_attempts`, `adjust_fingerprint`, `suggested_delay`). -/
structure Ctx where
  url : String
  sessionId : Nat
  attempts : Nat
  maxAttempts : Nat
  response : Option MResp
  stopAttempts : Bool
  adjustFingerprint : Bool
  suggestedDelay : Option ℚ
deriving DecidableEq, Repr

/-- Embeds `AdaptiveManager.adjust_strategy`.  The `random.uniform(-rj, rj)` draw
is the parameter `jitter`.  The context always carries an `attempts` key at
every call site of the program, so the Python `"attempts" in context` test
is true. -/
def adjustStrategy (st : AdaptState) (fb : Feedback) (jitter : ℚ) (ctx : Ctx) :
    AdaptState × Ctx :=
  let st1 :=
    if fb.slow_down then
      { st with currentDelay := min (st.currentDelay * (1.5 : ℚ)) st.maxDelay,
                delayIncreased := st.delayIncreased + 1 }
    else if fb.speed_up then
      { st with currentDelay := max (st.currentDelay * (0.8 : ℚ)) st.minDelay,
                delayDecreased := st.delayDecreased + 1 }
    else st
  let d2 := max st.minDelay (min (st1.currentDelay + jitter) st.maxDelay)
  let st2 := { st1 with currentDelay := d2 }
  let ctx1 :=
    if fb.retry_needed && decide (ctx.maxAttempts ≤ ctx.attempts) then
      { ctx with stopAttempts := true }
    else ctx
  (st2, ctx1)

/-! ## ThrottleManager (`throttle_manager.py`) -/

/-- State of the `ThrottleManager` (`min_rate` default 1.0; `current_rate`
initialised to `min_rate`; `max_concurrent` clamped to at least 1;
`last_request_time` initialised to the construction time). -/
structure ThState where
  minRate : ℚ
  currentRate : ℚ
  maxConcurrent : Nat
  requestCount : Nat
  lastRequestTime : ℚ
  activeRequests : Nat
deriving DecidableEq, Repr

/-- Embeds `ThrottleManager.update_rate`: clamp to at least `min_rate`. -/
def updateRate (st : ThState) (newRate : ℚ) : ThState :=
  { st with currentRate := max newRate st.minRate }

/-- Embeds `ThrottleManager.complete_request`: decrement `active_requests`,
clamped at zero (with a warning). -/
def completeRequest (st : ThState) : ThState :=
  if 0 < st.activeRequests then
    { st with activeRequests := st.activeRequests - 1 }
  else st

/-- The grant block at the end of `ThrottleManager.limit_rate`:
`active_requests += 1; request_count += 1; last_request_time = time.time()`
executed at time `t`. -/
def grantNow (st : ThState) (t : ℚ) : ThState :=
  { st with activeRequests := st.activeRequests + 1,
            requestCount := st.requestCount + 1,
            lastRequestTime := t }

/-- Embeds `ThrottleManager.limit_rate` executed sequentially (no interleaving
with other tasks): called at time `now`, it blocks while
`active_requests >= max_concurrent` (modelled as `none`, since with no
concurrent releaser the poll loop never exits), otherwise sleeps out the
remainder of `current_rate` and grants; returns the new state and the
recorded grant time. -/
def limitRateSeq (st : ThState) (now : ℚ) : Option (ThState × ℚ) :=
  if st.maxConcurrent ≤ st.activeRequests then none
  else
    let timeSinceLast := now - st.lastRequestTime
    let grantTime :=
      if timeSinceLast < st.currentRate then st.lastRequestTime + st.currentRate
      else now
    some (grantNow st grantTime, grantTime)

/-- Control point of one task inside `limit_rate`, between its cooperative
suspension points: `ready` (about to run the concurrency check), `sleeping`
(suspended in the rate-delay `asyncio.sleep`, which on wake grants without
re-checking anything), `polling` (suspended in the 0.5 s concurrency poll
sleep, which on wake repeats the check) and `granted`. -/
inductive TaskPC where
  | ready : TaskPC
  | sleeping : ℚ → TaskPC
  | polling : ℚ → TaskPC
  | granted : ℚ → TaskPC
deriving DecidableEq, Repr

/-- A configuration of the interleaved model: shared `ThrottleManager`
state, the event-loop clock, and the control point of each task running
`limit_rate`. -/
structure ThConfig where
  st : ThState
  time : ℚ
  tasks : List TaskPC
deriving DecidableEq, Repr

/-- A scheduler step: advance the clock, or run task `i` up to its next
suspension point. -/
inductive ThStep where
  | tick : ℚ → ThStep
  | run : Nat → ThStep
deriving DecidableEq, Repr

/-- Small-step semantics of concurrent `limit_rate` calls under the
cooperative event loop.  The atomic blocks are exactly the code between
`await`s: the concurrency check plus the rate computation run atomically;
a task that entered the rate-delay sleep increments the counters on wake
without re-checking. -/
def execStep (cfg : ThConfig) : ThStep → Option ThConfig
  | .tick d =>
    if 0 ≤ d then some { cfg with time := cfg.time + d } else none
  | .run i =>
    match cfg.tasks.get? i with
    | some .ready =>
      if cfg.st.maxConcurrent ≤ cfg.st.activeRequests then
        some { cfg with tasks := cfg.tasks.set i (.polling (cfg.time + (0.5 : ℚ))) }
      else
        let timeSinceLast := cfg.time - cfg.st.lastRequestTime
        if timeSinceLast < cfg.st.currentRate then
          let wake := cfg.time + (cfg.st.currentRate - timeSinceLast)
          some { cfg with tasks := cfg.tasks.set i (.sleeping wake) }
        else
          some { st := grantNow cfg.st cfg.time, time := cfg.time,
                 tasks := cfg.tasks.set i (.granted cfg.time) }
    | some (.sleeping wake) =>
      if wake ≤ cfg.time then
        some { st := grantNow cfg.st cfg.time, time := cfg.time,
               tasks := cfg.tasks.set i (.granted cfg.time) }
      else none
    | some (.polling wake) =>
      if wake ≤ cfg.time then
        some { cfg with tasks := cfg.tasks.set i .ready }
      else none
    | some (.granted _) => none
    | none => none

/-- Run a schedule of steps from a configuration. -/
def runSteps (steps : List ThStep) (cfg : ThConfig) : Option ThConfig :=
  steps.foldlM execStep cfg

/-! ## PluginManager (`plugin_manager.py`) -/

/-- A plugin instance; Python's `plugin not in self.plugins` compares by
object identity (no `__eq__` override), modelled by an identity token. -/
structure PluginInst where
  ident : Nat
deriving DecidableEq, Repr

/-- Embeds `PluginManager.register_plugin`: append unless already registered
(duplicate registration only logs a warning). -/
def registerPlugin (plugins : List PluginInst) (p : PluginInst) : List PluginInst :=
  if p ∈ plugins then plugins else plugins ++ [p]

/-! ## FingerprintManager (`fingerprint_manager.py`) -/

/-- The fingerprint dict built by `FingerprintManager.generate_fingerprint`
/ `adjust_fingerprint` (geolocation flattened to its two coordinates). -/
structure Fingerprint where
  userAgent : String
  viewportWidth : Nat
  viewportHeight : Nat
  screenWidth : Nat
  screenHeight : Nat
  locale : String
  timezoneId : String
  deviceScaleFactor : ℚ
  geolocationLatitude : ℚ
  geolocationLongitude : ℚ
  browserType : String
deriving DecidableEq, Repr

/-- Embeds `FingerprintManager.adjust_fingerprint`: copy the current fingerprint
and overwrite `userAgent`, `viewport` and `screen` with fresh draws
(`ua = self.ua.random`, `width = random.randint(1024, 1920)`,
`height = random.randint(768, 1080)`), passed here as parameters. -/
def adjustFingerprint (current : Fingerprint) (ua : String) (w h : Nat) :
    Fingerprint :=
  { current with userAgent := ua, viewportWidth := w, viewportHeight := h,
                 screenWidth := w, screenHeight := h }

/-! ## NewsCrawler queue consumption (`news_crawler.py`) -/

/-- The loop of `NewsCrawler.fetch_urls_from_queue`: drain the queue while
the batch is not full, skipping URLs already in the process-wide
`processed_urls` set and adding every batched URL to it.  The queue is the
list of pending URLs (the `qsize() > 0` guard means `get` never blocks, so
the timeout branch is unreachable single-consumer).  Returns the batch,
the remaining queue and the updated processed set. -/
def fetchLoop (batchSize : Nat) :
    List String → List String → List String →
    List String × List String × List String
  | queue, processed, batch =>
    if batch.length < batchSize then
      match queue with
      | [] => (batch, [], processed)
      | u :: rest =>
        if u ∈ processed then fetchLoop batchSize rest processed batch
        else fetchLoop batchSize rest (u :: processed) (batch ++ [u])
    else (batch, queue, processed)

/-- Embeds `NewsCrawler.fetch_urls_from_queue` (entered with an empty batch). -/
def fetchUrlsFromQueue (batchSize : Nat) (queue processed : List String) :
    List String × List String × List String :=
  fetchLoop batchSize queue processed []

/-! ## NewsCrawler per-URL pipeline (`news_crawler.py`) -/

/-- The dict returned by `ArticleParser.extract_article` on success: the
`title`, `publish_date` and `source` values may be Python `None`; `content`
is always a non-empty cleaned string on the non-`None` return paths. -/
structure Parsed where
  title : Option String
  publishDate : Option String
  content : String
  source : Option String
deriving DecidableEq, Repr

/-- The dict returned by `ContentAnalyzer.analyze_content` on success
(`labels` flattened). -/
structure Analysis where
  keywords : List String
  summary : String
  marketType : String
  sentiment : String
  marketImpact : String
deriving DecidableEq, Repr

/-- An outcome record handed to `DataSaver.add_record`. -/
structure Record where
  url : String
  fetchDate : String
  title : Option String
  publishDate : Option String
  content : Option String
  source : Option String
  keywords : List String
  summary : String
  marketType : String
  sentiment : String
  marketImpact : String
  language : String
  status : String
deriving DecidableEq, Repr

/-- The crawler-shared mutable state touched by one URL task: the
`AdaptiveManager` and the `ThrottleManager` owned by the shared
`BrowserService`. -/
structure CrawlState where
  adapt : AdaptState
  throttle : ThState
deriving DecidableEq, Repr

/-- Outcomes of the external operations performed by one run of
`process_single_url`.  Each `Bool` says whether the corresponding awaited
browser call returned normally; `sendResult` is the value returned by
`RequestManager.send_request` (its internal retries are modelled by
`sendRequest`); `parseResult`/`analyzeResult` distinguish the collaborator
raising (`none`) from returning `None` (`some none`) and from returning a
dict (`some (some _)`). -/
structure TaskEnv where
  newContextOk : Bool
  newPageOk : Bool
  stealthOk : Bool
  now : ℚ
  nowStr : String
  sendResult : Option String
  loadTime : ℚ
  adjJitter : ℚ
  simulateOk : Bool
  parseResult : Option (Option Parsed)
  analyzeResult : Option (Option Analysis)
deriving DecidableEq, Repr

/-- The response dict written by `NewsCrawler.fetch_content` into
`context["response"]`: `status` is `200` when `send_request` returned
truthy content and `0` otherwise; `content` is the raw `str | None`
returned by `send_request`. -/
def fetchContentResponseDict (responseContent : Option String) (loadTime : ℚ) :
    MResp :=
  { status := if pyTruthy responseContent then 200 else 0
    content := responseContent
    loadTime := loadTime }

/-- Embeds `PluginManager.execute_plugins` with the one plugin the orchestrator
registers (`AntiBotPlugin`): if the last response content contains
`"cloudflare"` or `"captcha"` (case-insensitive), set
`adjust_fingerprint = True` and `suggested_delay = 2.0`.  A missing
response key reads as `{}` hence content `""`; a Python-`None` content
makes the plugin raise (`None.lower()`), which `asyncio.gather(...,
return_exceptions=True)` isolates, leaving the context unchanged.  The
manager's own `suggested_delay` sleep has no state effect. -/
def executePlugins (ctx : Ctx) : Ctx :=
  match ctx.response with
  | none => ctx
  | some r =>
    match r.content with
    | none => ctx
    | some c =>
      if hasCloudflare c || hasCaptcha c then
        { ctx with adjustFingerprint := true, suggestedDelay := some (2 : ℚ) }
      else ctx

/-- Embeds `NewsCrawler.handle_plugin_suggestions`.  After running the plugins it
rotates the fingerprint when `adjust_fingerprint` is set — calling
`page.close()` first, which raises `AttributeError` when the task's `page`
is `None` (`pageCreated = false`) — and then reconciles a truthy
`suggested_delay` into the throttle rate via
`max(current adaptive delay, suggested)`.  The fresh page/context handles
produced by a successful rotation replace the ones stored in the context;
they are not otherwise tracked by the model. -/
def handlePluginSuggestions (st : CrawlState) (ctx : Ctx) (pageCreated : Bool) :
    Except String (CrawlState × Ctx) :=
  let ctx1 := executePlugins ctx
  if ctx1.adjustFingerprint && !pageCreated then
    .error "AttributeError: NoneType object has no attribute close"
  else
    match ctx1.suggestedDelay with
    | some d =>
      if d ≠ 0 then
        let newDelay := max st.adapt.currentDelay d
        .ok ({ st with throttle := updateRate st.throttle newDelay }, ctx1)
      else .ok (st, ctx1)
    | none => .ok (st, ctx1)

/-- Embeds `NewsCrawler.fetch_content`: gate on the throttle (the admission wait
is time-only; its post-wait counter effect is `grantNow` — the interleaved
semantics lives in `execStep`), run `send_request`, overwrite
`context["response"]`, classify it with `monitor_response` (which raises
when the content is Python `None`), adjust the adaptive delay, propagate it
into the throttle rate, run the plugins, release the throttle slot, and
return the content unless it is falsy or `stop_attempts` was set.  The
state reached at each point is returned even when `monitor_response`
raises, since the Python objects are mutated in place. -/
def fetchContent (st : CrawlState) (ctx : Ctx) (env : TaskEnv) :
    CrawlState × Ctx × Except String (Option String) :=
  let st1 := { st with throttle := grantNow st.throttle env.now }
  let resp := fetchContentResponseDict env.sendResult env.loadTime
  let ctx1 := { ctx with response := some resp }
  match monitorResponse st1.adapt (some resp) with
  | .error e => (st1, ctx1, .error e)
  | .ok fb =>
    let p := adjustStrategy st1.adapt fb env.adjJitter ctx1
    let st2 := { st1 with adapt := p.1,
                          throttle := updateRate st1.throttle p.1.currentDelay }
    let ctx2 := executePlugins p.2
    let st3 := { st2 with throttle := completeRequest st2.throttle }
    if pyTruthy env.sendResult && !ctx2.stopAttempts then
      (st3, ctx2, .ok env.sendResult)
    else
      (st3, ctx2, .ok none)

/-- What the `try` body of `process_single_url` left behind: the shared
state and context as mutated so far, which browser resources were created,
the `parsed_data` local (`none` = never bound, `some none` = bound to
Python `None`), and the success record if the body ran to completion. -/
structure BodyOut where
  state : CrawlState
  ctx : Ctx
  pageCreated : Bool
  contextCreated : Bool
  parsedLocal : Option (Option Parsed)
  outcome : Option Record
deriving DecidableEq, Repr

/-- The record built at the end of the `try` body (`status` is
`"success"` iff the analysis returned a dict; `language` comes from the
four-character Chinese test on the parsed content). -/
def mkSuccessRecord (url : String) (env : TaskEnv) (p : Parsed)
    (a : Option Analysis) : Record :=
  let language :=
    if (p.content.toList.contains '的' || p.content.toList.contains '一'
        || p.content.toList.contains '是' || p.content.toList.contains '不')
    then "zh" else "en"
  { url := url
    fetchDate := env.nowStr
    title := p.title
    publishDate := p.publishDate
    content := some p.content
    source := p.source
    keywords := match a with | some an => an.keywords | none => []
    summary := match a with | some an => an.summary | none => ""
    marketType := match a with | some an => an.marketType | none => "Other"
    sentiment := match a with | some an => an.sentiment | none => "Neutral"
    marketImpact := match a with | some an => an.marketImpact | none => "Neutral"
    language := language
    status := if a.isSome then "success" else "failed" }

/-- The failure record built inside the `except` handler.  Every parsed
field is guarded by `'parsed_data' in locals()`, which is also true when
`parsed_data` was bound to Python `None` — in that case
`parsed_data.get(...)` raises `AttributeError` out of the handler,
modelled by `.error`. -/
def buildFailedRecord (url : String) (env : TaskEnv)
    (parsedLocal : Option (Option Parsed)) : Except String Record :=
  match parsedLocal with
  | some none => .error "AttributeError: NoneType object has no attribute get"
  | _ =>
    let p : Option Parsed := match parsedLocal with
      | some (some p) => some p
      | _ => none
    .ok { url := url
          fetchDate := env.nowStr
          title := match p with | some q => q.title | none => some ""
          publishDate := match p with | some q => q.publishDate | none => some ""
          content := match p with | some q => some q.content | none => some ""
          source := match p with | some q => q.source | none => some ""
          keywords := []
          summary := ""
          marketType := "Other"
          sentiment := "Neutral"
          marketImpact := "Neutral"
          language := "unknown"
          status := "failed" }

/-- The `try` body of `NewsCrawler.process_single_url`, step by step:
fingerprint generation (pure), `browser.new_context`,
`grant_permissions` (the fingerprint always carries a geolocation),
`new_page`, `stealth_async`, `fetch_content` (raising when it returned no
content), behaviour simulation, article extraction (raising on a falsy
result), content analysis, `handle_plugin_suggestions`, and the success
record.  `outcome = none` means the body raised at that point. -/
def processSingleUrlBody (st0 : CrawlState) (url : String) (sid : Nat)
    (env : TaskEnv) : BodyOut :=
  let ctx0 : Ctx :=
    { url := url, sessionId := sid, attempts := 0, maxAttempts := 3,
      response := none, stopAttempts := false, adjustFingerprint := false,
      suggestedDelay := none }
  if !env.newContextOk then ⟨st0, ctx0, false, false, none, none⟩
  else if !env.newPageOk then ⟨st0, ctx0, false, true, none, none⟩
  else if !env.stealthOk then ⟨st0, ctx0, true, true, none, none⟩
  else
    match fetchContent st0 ctx0 env with
    | (st1, ctx1, .error _) => ⟨st1, ctx1, true, true, none, none⟩
    | (st1, ctx1, .ok none) => ⟨st1, ctx1, true, true, none, none⟩
    | (st1, ctx1, .ok (some _)) =>
      if !env.simulateOk then ⟨st1, ctx1, true, true, none, none⟩
      else
        match env.parseResult with
        | none => ⟨st1, ctx1, true, true, none, none⟩
        | some none => ⟨st1, ctx1, true, true, some none, none⟩
        | some (some parsed) =>
          match env.analyzeResult with
          | none => ⟨st1, ctx1, true, true, some (some parsed), none⟩
          | some analysis =>
            match handlePluginSuggestions st1 ctx1 true with
            | .error _ => ⟨st1, ctx1, true, true, some (some parsed), none⟩
            | .ok (st2, ctx2) =>
              ⟨st2, ctx2, true, true, some (some parsed),
                some (mkSuccessRecord url env parsed analysis)⟩

/-- The observable outcome of one `process_single_url` task: the records
handed to the data saver, whether each `finally` cleanup step ran
(`EnvironmentCleaner.clean_session`, `SessionManager.close_session`,
`page.close()`, `browser_context.close()`), and whether an exception
escaped the task into `asyncio.gather`. -/
structure TaskResult where
  state : CrawlState
  records : List Record
  cleaned : Bool
  sessionClosed : Bool
  pageClosed : Bool
  contextClosed : Bool
  raised : Bool
deriving DecidableEq, Repr

/-- Embeds `NewsCrawler.process_single_url`: run the `try` body; on success the
body's record was persisted; on a body exception the `except` handler runs
`handle_plugin_suggestions` and builds/persists the failure record — each
of which can itself raise, in which case nothing is persisted and the new
exception escapes the task.  The `finally` block always runs: the context
dict is never falsy (it always has at least the url key), so
`clean_session` and `close_session` always execute, and the page/context
are closed iff they were created. -/
def processSingleUrl (st0 : CrawlState) (url : String) (sid : Nat)
    (env : TaskEnv) : TaskResult :=
  let b := processSingleUrlBody st0 url sid env
  match b.outcome with
  | some record =>
    { state := b.state, records := [record], cleaned := true,
      sessionClosed := true, pageClosed := b.pageCreated,
      contextClosed := b.contextCreated, raised := false }
  | none =>
    match handlePluginSuggestions b.state b.ctx b.pageCreated with
    | .error _ =>
      { state := b.state, records := [], cleaned := true,
        sessionClosed := true, pageClosed := b.pageCreated,
        contextClosed := b.contextCreated, raised := true }
    | .ok (st2, _) =>
      match buildFailedRecord url env b.parsedLocal with
      | .error _ =>
        { state := st2, records := [], cleaned := true,
          sessionClosed := true, pageClosed := b.pageCreated,
          contextClosed := b.contextCreated, raised := true }
      | .ok record =>
        { state := st2, records := [record], cleaned := true,
          sessionClosed := true, pageClosed := b.pageCreated,
          contextClosed := b.contextCreated, raised := false }


/-! ## Shared concrete inputs used by witnesses and counterexamples -/

/-- A benign article body: longer than 50 characters, no CAPTCHA/WAF
markers, no Chinese characters. -/
def benignContent : String :=
  "Global markets steadied on Tuesday as investors weighed fresh data."

/-- A throw-away crawl context for exercising `adjustStrategy`. -/
def ctxW : Ctx :=
  { url := "https://news.example.com/a", sessionId := 0, attempts := 0,
    maxAttempts := 3, response := none, stopAttempts := false,
    adjustFingerprint := false, suggestedDelay := none }

/-! ## Claims -/

/-- C3: for the n-th retry (1-indexed) the pre-jitter backoff delay equals
`min(base_delay * backoff_factor^(n-1), max_delay)`; the uniform jitter
drawn from [0, 0.5] is added on top; for `backoff_factor ≥ 1` (and a
non-negative base delay) the pre-jitter delay is monotonically
non-decreasing in the attempt number and capped at `max_delay`. -/
theorem c3_backoff_delay (rm : RequestManagerCfg) (n m : Nat) (jitter : ℚ)
    (hnm : n ≤ m) (hf : 1 ≤ rm.backoffFactor) (hb : 0 ≤ rm.baseDelay)
    (hj0 : 0 ≤ jitter) (hj1 : jitter ≤ 1 / 2) :
    applyRetryDelayPre rm n
        = min (rm.baseDelay * rm.backoffFactor ^ (n - 1)) rm.maxDelay ∧
    applyRetryDelayPre rm n ≤ applyRetryDelayPre rm m ∧
    applyRetryDelayPre rm n ≤ rm.maxDelay ∧
    applyRetryDelayTotal rm n jitter = applyRetryDelayPre rm n + jitter ∧
    applyRetryDelayPre rm n ≤ applyRetryDelayTotal rm n jitter ∧
    applyRetryDelayTotal rm n jitter ≤ applyRetryDelayPre rm n + 1 / 2 := by
  refine ⟨rfl, ?_, min_le_right _ _, rfl, ?_, ?_⟩
  · unfold applyRetryDelayPre
    refine min_le_min ?_ le_rfl
    exact mul_le_mul_of_nonneg_left
      (pow_le_pow_right₀ hf (Nat.sub_le_sub_right hnm 1)) hb
  · unfold applyRetryDelayTotal
    linarith
  · unfold applyRetryDelayTotal
    linarith

/-- Witness for C3 at the constructor defaults, attempts 1 and 3,
jitter 1/4. -/
theorem c3_backoff_delay_witness :
    ((1 : Nat) ≤ 3 ∧ (1 : ℚ) ≤ 2 ∧ (0 : ℚ) ≤ 1 ∧ (0 : ℚ) ≤ 1 / 4 ∧ (1 : ℚ) / 4 ≤ 1 / 2) ∧
    applyRetryDelayPre ⟨1, 10, 2⟩ 1 ≤ applyRetryDelayPre ⟨1, 10, 2⟩ 3 ∧
    applyRetryDelayPre ⟨1, 10, 2⟩ 1 ≤ (10 : ℚ) :=
  ⟨⟨by norm_num, by norm_num, by norm_num, by norm_num, by norm_num⟩,
    (c3_backoff_delay ⟨1, 10, 2⟩ 1 3 (1 / 4) (by norm_num) (by norm_num)
      (by norm_num) (by norm_num) (by norm_num)).2.1,
    (c3_backoff_delay ⟨1, 10, 2⟩ 1 3 (1 / 4) (by norm_num) (by norm_num)
      (by norm_num) (by norm_num) (by norm_num)).2.2.1⟩

/-- C5: `adjust_strategy` moves the pre-jitter delay to
`min(old * 1.5, max_delay)` on slow_down (bumping the increased counter),
else to `max(old * 0.8, min_delay)` on speed_up (bumping the decreased
counter); it then adds the jitter and clamps, so the stored delay always
lands in `[min_delay, max_delay]` regardless of the jitter's sign. -/
theorem c5_adjust_strategy_invariant (st : AdaptState) (fb : Feedback)
    (jitter : ℚ) (ctx : Ctx) (hmm : st.minDelay ≤ st.maxDelay) :
    (fb.slow_down = true →
      (adjustStrategy st fb jitter ctx).1.currentDelay
          = max st.minDelay
              (min (min (st.currentDelay * (1.5 : ℚ)) st.maxDelay + jitter) st.maxDelay) ∧
      (adjustStrategy st fb jitter ctx).1.delayIncreased = st.delayIncreased + 1) ∧
    (fb.slow_down = false → fb.speed_up = true →
      (adjustStrategy st fb jitter ctx).1.currentDelay
          = max st.minDelay
              (min (max (st.currentDelay * (0.8 : ℚ)) st.minDelay + jitter) st.maxDelay) ∧
      (adjustStrategy st fb jitter ctx).1.delayDecreased = st.delayDecreased + 1) ∧
    st.minDelay ≤ (adjustStrategy st fb jitter ctx).1.currentDelay ∧
    (adjustStrategy st fb jitter ctx).1.currentDelay ≤ st.maxDelay := by
  refine ⟨?_, ?_, ?_, ?_⟩
  · intro hs
    exact ⟨by simp [adjustStrategy, hs], by simp [adjustStrategy, hs]⟩
  · intro hs hu
    exact ⟨by simp [adjustStrategy, hs, hu], by simp [adjustStrategy, hs, hu]⟩
  · cases hs : fb.slow_down <;> cases hu : fb.speed_up <;>
      simp [adjustStrategy, hs, hu]
  · cases hs : fb.slow_down <;> cases hu : fb.speed_up <;>
      simp [adjustStrategy, hs, hu] <;> exact hmm

/-- Witness for C5: defaults with a slow_down signal and jitter 1/10. -/
theorem c5_adjust_strategy_witness :
    ((1 : ℚ) ≤ 5) ∧
    (adjustStrategy ⟨1, 5, 1, 2, 1 / 2, 1 / 5, 0, 0⟩
        ⟨true, false, false, false, false⟩ (1 / 10) ctxW).1.delayIncreased = 1 :=
  ⟨by norm_num,
    ((c5_adjust_strategy_invariant ⟨1, 5, 1, 2, 1 / 2, 1 / 5, 0, 0⟩
        ⟨true, false, false, false, false⟩ (1 / 10) ctxW (by norm_num)).1 rfl).2⟩

/-- C9: registering the same plugin instance twice leaves the registry (and
hence the registered-plugin count) the same as registering it once. -/
theorem c9_register_plugin_idempotent (plugins : List PluginInst) (p : PluginInst) :
    registerPlugin (registerPlugin plugins p) p = registerPlugin plugins p ∧
    (registerPlugin (registerPlugin plugins p) p).length
        = (registerPlugin plugins p).length := by
  have hmem : p ∈ registerPlugin plugins p := by
    unfold registerPlugin
    by_cases hp : p ∈ plugins <;> simp [hp]
  have hfix : registerPlugin (registerPlugin plugins p) p = registerPlugin plugins p := by
    rw [registerPlugin, if_pos hmem]
  exact ⟨hfix, by rw [hfix]⟩

/-- C10 counterexample: `adjust_fingerprint` draws the new user agent from
the same pool and the new viewport from `[1024,1920] × [768,1080]`, with no
inequality check against the previous fingerprint; with the previous
fingerprint below (an admissible output of an earlier rotation) and the
draws `(same UA, 1280, 800)` — all within the draw supports — the "new"
fingerprint is identical to the previous one, so it does not differ in
user agent or viewport. -/
def fpC10 : Fingerprint :=
  { userAgent := "Mozilla/5.0 (X11; Linux x86_64)", viewportWidth := 1280,
    viewportHeight := 800, screenWidth := 1280, screenHeight := 800,
    locale := "en-US", timezoneId := "UTC", deviceScaleFactor := 1,
    geolocationLatitude := 0, geolocationLongitude := 0,
    browserType := "chromium" }

/-- C10 counterexample: a possible rotation returns a fingerprint equal to
the previous one, contradicting "differs at least in user agent and
viewport". -/
theorem c10_counterexample :
    adjustFingerprint fpC10 "Mozilla/5.0 (X11; Linux x86_64)" 1280 800 = fpC10 ∧
    (adjustFingerprint fpC10 "Mozilla/5.0 (X11; Linux x86_64)" 1280 800).userAgent
        = fpC10.userAgent ∧
    (adjustFingerprint fpC10 "Mozilla/5.0 (X11; Linux x86_64)" 1280 800).viewportWidth
        = fpC10.viewportWidth ∧
    (adjustFingerprint fpC10 "Mozilla/5.0 (X11; Linux x86_64)" 1280 800).viewportHeight
        = fpC10.viewportHeight := by
  exact ⟨rfl, rfl, rfl, rfl⟩

/-- C10 (amended): rotation overwrites the user agent with the fresh UA
draw and the viewport and screen with the fresh `randint` draws (within
`[1024,1920] × [768,1080]`), while locale, timezone, geolocation, device
scale factor and browser type are preserved unchanged; it does not
guarantee that the new user agent or viewport differ from the previous
ones. -/
theorem c10_adjust_fingerprint_frame (fp : Fingerprint) (ua : String) (w h : Nat)
    (_hw1 : 1024 ≤ w) (_hw2 : w ≤ 1920) (_hh1 : 768 ≤ h) (_hh2 : h ≤ 1080) :
    (adjustFingerprint fp ua w h).userAgent = ua ∧
    (adjustFingerprint fp ua w h).viewportWidth = w ∧
    (adjustFingerprint fp ua w h).viewportHeight = h ∧
    (adjustFingerprint fp ua w h).screenWidth = w ∧
    (adjustFingerprint fp ua w h).screenHeight = h ∧
    (adjustFingerprint fp ua w h).locale = fp.locale ∧
    (adjustFingerprint fp ua w h).timezoneId = fp.timezoneId ∧
    (adjustFingerprint fp ua w h).geolocationLatitude = fp.geolocationLatitude ∧
    (adjustFingerprint fp ua w h).geolocationLongitude = fp.geolocationLongitude ∧
    (adjustFingerprint fp ua w h).deviceScaleFactor = fp.deviceScaleFactor ∧
    (adjustFingerprint fp ua w h).browserType = fp.browserType :=
  ⟨rfl, rfl, rfl, rfl, rfl, rfl, rfl, rfl, rfl, rfl, rfl⟩

/-- Witness for C10 at an in-range draw. -/
theorem c10_adjust_fingerprint_witness :
    ((1024 : Nat) ≤ 1024 ∧ (1024 : Nat) ≤ 1920 ∧ (768 : Nat) ≤ 768 ∧ (768 : Nat) ≤ 1080) ∧
    (adjustFingerprint fpC10 "agent-b" 1024 768).userAgent = "agent-b" ∧
    (adjustFingerprint fpC10 "agent-b" 1024 768).locale = fpC10.locale :=
  ⟨⟨by norm_num, by norm_num, by norm_num, by norm_num⟩,
    (c10_adjust_fingerprint_frame fpC10 "agent-b" 1024 768
      (by norm_num) (by norm_num) (by norm_num) (by norm_num)).1,
    (c10_adjust_fingerprint_frame fpC10 "agent-b" 1024 768
      (by norm_num) (by norm_num) (by norm_num) (by norm_num)).2.2.2.2.2.1⟩


/-- Invariant of the `fetch_urls_from_queue` loop: starting from a
duplicate-free batch whose members are already in the processed set and
whose size is within the quota, the final batch stays duplicate-free and
within the quota, every batched URL ends up in the final processed set,
every batched URL was either already batched or not previously processed,
and the processed set only grows. -/
theorem fetchLoop_invariant (batchSize : Nat) :
    ∀ (queue processed batch : List String),
      batch.Nodup → (∀ a ∈ batch, a ∈ processed) → batch.length ≤ batchSize →
      (fetchLoop batchSize queue processed batch).1.Nodup ∧
      (fetchLoop batchSize queue processed batch).1.length ≤ batchSize ∧
      (∀ u ∈ (fetchLoop batchSize queue processed batch).1,
        u ∈ (fetchLoop batchSize queue processed batch).2.2) ∧
      (∀ u ∈ (fetchLoop batchSize queue processed batch).1,
        u ∈ batch ∨ u ∉ processed) ∧
      (∀ x ∈ processed, x ∈ (fetchLoop batchSize queue processed batch).2.2) := by
  intro queue
  induction queue with
  | nil =>
    intro processed batch hnd hsub hlen
    by_cases hb : batch.length < batchSize <;>
      simp [fetchLoop, hb] <;>
      exact ⟨hnd, hlen, hsub, fun u hu => Or.inl hu⟩
  | cons u rest ih =>
    intro processed batch hnd hsub hlen
    by_cases hb : batch.length < batchSize
    · by_cases hp : u ∈ processed
      · have hstep :
            fetchLoop batchSize (u :: rest) processed batch
              = fetchLoop batchSize rest processed batch := by
          rw [fetchLoop]
          simp [hb, hp]
        rw [hstep]
        exact ih processed batch hnd hsub hlen
      · have hstep :
            fetchLoop batchSize (u :: rest) processed batch
              = fetchLoop batchSize rest (u :: processed) (batch ++ [u]) := by
          rw [fetchLoop]
          simp [hb, hp]
        rw [hstep]
        have hub : u ∉ batch := fun hu => hp (hsub u hu)
        have hnd2 : (batch ++ [u]).Nodup := by
          simp [List.nodup_append, hub, hnd]
        have hsub2 : ∀ a ∈ batch ++ [u], a ∈ u :: processed := by
          intro a ha
          rcases List.mem_append.1 ha with ha | ha
          · exact List.mem_cons_of_mem _ (hsub a ha)
          · simp at ha
            simp [ha]
        have hlen2 : (batch ++ [u]).length ≤ batchSize := by
          simp
          omega
        obtain ⟨g1, g2, g3, g4, g5⟩ := ih (u :: processed) (batch ++ [u]) hnd2 hsub2 hlen2
        refine ⟨g1, g2, g3, ?_, ?_⟩
        · intro v hv
          rcases g4 v hv with hv2 | hv2
          · rcases List.mem_append.1 hv2 with hv3 | hv3
            · exact Or.inl hv3
            · simp at hv3
              subst hv3
              exact Or.inr hp
          · exact Or.inr fun hvp => hv2 (List.mem_cons_of_mem _ hvp)
        · intro x hx
          exact g5 x (List.mem_cons_of_mem _ hx)
    · have hstep :
          fetchLoop batchSize (u :: rest) processed batch
            = (batch, u :: rest, processed) := by
        rw [fetchLoop]
        simp [hb]
      rw [hstep]
      exact ⟨hnd, hlen, hsub, fun v hv => Or.inl hv, fun x hx => hx⟩

/-- C7: every batch returned by `fetch_urls_from_queue` has at most
`batch_size` URLs, no duplicates, no URL that was in the processed set
before the call; every returned URL is in the processed set afterwards,
and consequently no URL of this batch can appear in any later batch drawn
(from any queue contents) against the updated processed set. -/
theorem c7_fetch_urls_dedup (batchSize : Nat) (queue processed queue2 : List String) :
    (fetchUrlsFromQueue batchSize queue processed).1.length ≤ batchSize ∧
    (fetchUrlsFromQueue batchSize queue processed).1.Nodup ∧
    (∀ u ∈ (fetchUrlsFromQueue batchSize queue processed).1, u ∉ processed) ∧
    (∀ u ∈ (fetchUrlsFromQueue batchSize queue processed).1,
      u ∈ (fetchUrlsFromQueue batchSize queue processed).2.2) ∧
    (∀ u ∈ (fetchUrlsFromQueue batchSize queue processed).1,
      u ∉ (fetchUrlsFromQueue batchSize queue2
            (fetchUrlsFromQueue batchSize queue processed).2.2).1) := by
  obtain ⟨g1, g2, g3, g4, _⟩ :=
    fetchLoop_invariant batchSize queue processed [] List.nodup_nil
      (by intro a ha; simp at ha) (Nat.zero_le _)
  have hnew : ∀ u ∈ (fetchUrlsFromQueue batchSize queue processed).1, u ∉ processed := by
    intro u hu
    rcases g4 u hu with h | h
    · simp at h
    · exact h
  refine ⟨g2, g1, hnew, g3, ?_⟩
  intro u hu hu2
  obtain ⟨_, _, _, k4, _⟩ :=
    fetchLoop_invariant batchSize queue2
      (fetchUrlsFromQueue batchSize queue processed).2.2 [] List.nodup_nil
      (by intro a ha; simp at ha) (Nat.zero_le _)
  rcases k4 u hu2 with h | h
  · simp at h
  · exact h (g3 u hu)

/-- Witness for C7 on a concrete queue with a duplicate and an
already-processed URL. -/
theorem c7_fetch_urls_dedup_witness :
    ("a" ∉ (["b"] : List String)) ∧
    "a" ∈ (fetchUrlsFromQueue 10 ["a", "b", "a"] ["b"]).2.2 :=
  ⟨(c7_fetch_urls_dedup 10 ["a", "b", "a"] ["b"] []).2.2.1 "a" (by decide),
    (c7_fetch_urls_dedup 10 ["a", "b", "a"] ["b"] []).2.2.2.1 "a" (by decide)⟩


/-- The retry loop agrees with the first-success description at every
starting attempt index: with `m` loop iterations left (`m = maxAttempts -
k`), it returns the first non-retryable attempt among indices
`k, ..., k+m-1` (success counter bumped), and otherwise exhausts, bumping
the failure counter iff the loop ran at all. -/
theorem sendRequestFrom_eq_find (resp : Nat → AttemptResp) (n : Nat) :
    ∀ (m k : Nat) (stats : RetryStats), m = n - k →
      sendRequestFrom resp n k stats =
        (match (List.range' k m).find? (fun j => !shouldRetry (resp j)) with
         | some j =>
            (some (resp j).content, { stats with success := stats.success + 1 }, j + 1)
         | none =>
            if k < n then (none, { stats with failure := stats.failure + 1 }, n)
            else (none, stats, k)) := by
  intro m
  induction m with
  | zero =>
    intro k stats hm
    have hk : ¬ k < n := by omega
    rw [sendRequestFrom]
    simp [hk]
  | succ m ih =>
    intro k stats hm
    have hk : k < n := by omega
    rw [sendRequestFrom]
    rw [List.range'_succ]
    by_cases hr : shouldRetry (resp k)
    · rw [List.find?_cons_of_neg _ (by simp [hr])]
      by_cases hlast : n ≤ k + 1
      · have hm0 : m = 0 := by omega
        have hn : n = k + 1 := by omega
        subst hm0
        simp [hk, hr, hlast, hn]
      · have hm2 : m = n - (k + 1) := by omega
        rw [if_pos hk, if_pos hr, if_neg hlast, ih (k + 1) stats hm2]
        have hk1 : k + 1 < n := by omega
        cases hfind : (List.range' (k + 1) m).find? (fun j => !shouldRetry (resp j)) <;>
          simp [hfind, hk, hk1]
    · rw [List.find?_cons_of_pos _ (by simp [hr])]
      simp [hk, hr]

/-- C2 counterexample: with `max_attempts = 0` the loop body never runs, so
`send_request` returns `None` without touching the failure counter, whereas
the claim requires the failure counter to be incremented whenever every
attempt (vacuously all zero of them) was retryable. -/
theorem c2_counterexample :
    sendRequest (fun _ => ⟨0, ""⟩) 0 ⟨0, 0⟩ = (none, ⟨0, 0⟩, 0) ∧
    sendRequestSpec (fun _ => ⟨0, ""⟩) 0 ⟨0, 0⟩ = (none, ⟨0, 1⟩, 0) ∧
    sendRequest (fun _ => ⟨0, ""⟩) 0 ⟨0, 0⟩
      ≠ sendRequestSpec (fun _ => ⟨0, ""⟩) 0 ⟨0, 0⟩ := by
  have h1 : sendRequest (fun _ => ⟨0, ""⟩) 0 ⟨0, 0⟩ = (none, ⟨0, 0⟩, 0) := by
    unfold sendRequest
    rw [sendRequestFrom]
    simp
  have h2 : sendRequestSpec (fun _ => ⟨0, ""⟩) 0 ⟨0, 0⟩ = (none, ⟨0, 1⟩, 0) := by
    simp [sendRequestSpec]
  refine ⟨h1, h2, ?_⟩
  rw [h1, h2]
  simp

/-- C2 (amended): for `max_attempts ≥ 1`, `send_request` behaves exactly as
the claim describes — an attempt triggers a retry iff its status is in
{429,503,504} or ≥ 400, or its content is shorter than 50 characters or
contains "captcha" case-insensitively (`shouldRetry`); the first
non-retryable attempt has its content returned at once with the success
counter bumped; if all attempts are retryable, exactly `max_attempts`
attempts are made, `None` is returned and the failure counter is bumped.
With `max_attempts = 0` no attempt is made, `None` is returned and no
counter changes (see the counterexample). -/
theorem c2_send_request_refines (resp : Nat → AttemptResp) (maxAttempts : Nat)
    (stats : RetryStats) (h : 1 ≤ maxAttempts) :
    sendRequest resp maxAttempts stats = sendRequestSpec resp maxAttempts stats := by
  unfold sendRequest sendRequestSpec
  rw [sendRequestFrom_eq_find resp maxAttempts maxAttempts 0 stats (by omega)]
  rw [List.range_eq_range']
  have h0 : 0 < maxAttempts := h
  cases hf : (List.range' 0 maxAttempts).find? (fun j => !shouldRetry (resp j)) <;>
    simp [h0]

/-- Witness for C2: three attempts, the second of which succeeds (status
200, 60 characters, no marker). -/
theorem c2_send_request_refines_witness :
    (1 : Nat) ≤ 3 ∧
    sendRequest
        (fun k => if k = 1 then ⟨200, benignContent⟩ else ⟨503, ""⟩) 3 ⟨0, 0⟩
      = sendRequestSpec
        (fun k => if k = 1 then ⟨200, benignContent⟩ else ⟨503, ""⟩) 3 ⟨0, 0⟩ :=
  ⟨by norm_num,
    c2_send_request_refines
      (fun k => if k = 1 then ⟨200, benignContent⟩ else ⟨503, ""⟩) 3 ⟨0, 0⟩
      (by norm_num)⟩


/-- State of the `AdaptiveManager` with the default configuration. -/
def adaptDefault : AdaptState :=
  { minDelay := 1, maxDelay := 5, currentDelay := 1, adjustThresholdSlow := 2,
    adjustThresholdFast := 1 / 2, randomJitter := 1 / 5,
    delayIncreased := 0, delayDecreased := 0 }

/-- State of the `AdaptiveManager` configured with `adjust_threshold_fast = 2`
and `adjust_threshold_slow = 0` (fast threshold above slow threshold). -/
def adaptSwapped : AdaptState :=
  { minDelay := 1, maxDelay := 5, currentDelay := 1,
    adjustThresholdSlow := 0, adjustThresholdFast := 2,
    randomJitter := 1, delayIncreased := 0, delayDecreased := 0 }

/-- C4 counterexample: (i) on the response dict `{"content": None,
"status": 0, "load_time": 1}` — exactly what `fetch_content` stores when
`send_request` returns `None` — `monitor_response` raises instead of
returning feedback flags; (ii) with `adjust_threshold_fast = 2 >
adjust_threshold_slow = 0` and a 200-response with `load_time = 1`
(above the slow threshold), the code returns `slow_down = false` (the
`elif` chain stops at the speed-up branch), while the claim's rules
require `slow_down = true`. -/
theorem c4_counterexample :
    monitorResponse adaptDefault (some ⟨0, none, 1⟩)
        = .error "AttributeError: NoneType object has no attribute lower" ∧
    monitorResponse adaptSwapped (some ⟨200, some benignContent, 1⟩)
        = .ok ⟨false, true, false, false, false⟩ ∧
    (monitorSpecFlags adaptSwapped 200 benignContent 1).slow_down = true := by
  exact ⟨rfl, rfl, rfl⟩

/-- C4 (amended): for every response dict whose `content` value is a
string (a Python-`None` content makes the classifier raise, see the
counterexample) and provided `adjust_threshold_fast ≤
adjust_threshold_slow` (as in the defaults; otherwise the `elif` chain
suppresses `slow_down` on responses that are simultaneously "fast" and
"slow"), `monitor_response` returns exactly the feedback flags of the
claim's rules, rule by rule (`monitorSpecFlags`); an absent/empty response
yields slow_down and retry_needed only. -/
theorem c4_monitor_response_flags (st : AdaptState) (status : Int) (c : String)
    (t : ℚ) (hth : st.adjustThresholdFast ≤ st.adjustThresholdSlow) :
    monitorResponse st none = .ok ⟨true, false, true, false, false⟩ ∧
    monitorResponse st (some ⟨status, some c, t⟩)
        = .ok (monitorSpecFlags st status c t) := by
  refine ⟨rfl, ?_⟩
  have key : contentFlags (statusFlags st status t) c = monitorSpecFlags st status c t := by
    unfold statusFlags contentFlags monitorSpecFlags
    split_ifs with h1 h2 h3 h4 h5 h6 h7 <;>
      simp_all [Feedback.mk.injEq, decide_eq_true_eq] <;>
      first
        | rfl
        | omega
        | linarith
  show Except.ok (contentFlags (statusFlags st status t) c) = _
  rw [key]

/-- Witness for C4 at the default thresholds on a CAPTCHA-marked
200-response. -/
theorem c4_monitor_response_flags_witness :
    adaptDefault.adjustThresholdFast ≤ adaptDefault.adjustThresholdSlow ∧
    monitorResponse adaptDefault (some ⟨200, some "A CAPTCHA challenge", 1⟩)
        = .ok (monitorSpecFlags adaptDefault 200 "A CAPTCHA challenge" 1) :=
  ⟨by norm_num [adaptDefault],
    (c4_monitor_response_flags adaptDefault 200 "A CAPTCHA challenge" 1
      (by norm_num [adaptDefault])).2⟩


/-- Field-level description of the content checks of `monitor_response`. -/
theorem contentFlags_fields (fb : Feedback) (c : String) :
    (contentFlags fb c).retry_needed = fb.retry_needed ∧
    (contentFlags fb c).speed_up = fb.speed_up ∧
    (contentFlags fb c).slow_down = (fb.slow_down || hasCaptcha c) ∧
    (contentFlags fb c).captcha_detected = (fb.captcha_detected || hasCaptcha c) ∧
    (contentFlags fb c).waf_detected = (fb.waf_detected || hasCloudflare c) := by
  unfold contentFlags
  cases hc : hasCaptcha c <;> cases hw : hasCloudflare c <;> simp

/-- Status/load-time classification facts for the only two statuses that
`fetch_content` can store (200 and 0): the error-status branches of the
classifier are never taken. -/
theorem statusFlags_pipeline (st : AdaptState) (t : ℚ) (status : Int)
    (hst : status = 200 ∨ status = 0) :
    (statusFlags st status t).retry_needed = false ∧
    (statusFlags st status t).captcha_detected = false ∧
    (statusFlags st status t).waf_detected = false ∧
    ((statusFlags st status t).speed_up = true →
      status = 200 ∧ t < st.adjustThresholdFast) ∧
    ((statusFlags st status t).slow_down = true →
      status = 200 ∧ st.adjustThresholdSlow < t) := by
  unfold statusFlags
  split_ifs with h1 h2 h3 h4 h5 <;> first | (simp_all; omega) | simp_all

/-- C8: `fetch_content` stores status 200 exactly when `send_request`
returned truthy (non-`None`, non-empty) content and status 0 otherwise, so
the response it feeds into `monitor_response` never carries 429, 403 or
any status ≥ 400; whenever the classifier returns feedback for such a
response, `retry_needed` is false and every raised flag is explained by a
content marker or a load-time threshold: `waf_detected` only from a
"cloudflare" marker, `captcha_detected` only from a "captcha" marker,
`speed_up` only from a fast 200-load, `slow_down` only from a "captcha"
marker or a slow 200-load. -/
theorem c8_fetch_content_status_containment (st : AdaptState)
    (rc : Option String) (t : ℚ) :
    (fetchContentResponseDict rc t).status = (if pyTruthy rc then 200 else 0) ∧
    (fetchContentResponseDict rc t).status ≠ 429 ∧
    (fetchContentResponseDict rc t).status ≠ 403 ∧
    ¬ (400 ≤ (fetchContentResponseDict rc t).status) ∧
    (∀ fb, monitorResponse st (some (fetchContentResponseDict rc t)) = .ok fb →
      fb.retry_needed = false ∧
      (fb.waf_detected = true → hasCloudflare (rc.getD "") = true) ∧
      (fb.captcha_detected = true → hasCaptcha (rc.getD "") = true) ∧
      (fb.speed_up = true → pyTruthy rc = true ∧ t < st.adjustThresholdFast) ∧
      (fb.slow_down = true →
        hasCaptcha (rc.getD "") = true ∨
          (pyTruthy rc = true ∧ st.adjustThresholdSlow < t))) := by
  have h0 : (fetchContentResponseDict rc t).status = 200 ∨
      (fetchContentResponseDict rc t).status = 0 := by
    unfold fetchContentResponseDict
    by_cases hp : pyTruthy rc <;> simp [hp]
  refine ⟨rfl, ?_, ?_, ?_, ?_⟩
  · rcases h0 with h | h <;> omega
  · rcases h0 with h | h <;> omega
  · rcases h0 with h | h <;> omega
  · intro fb hfb
    cases hrc : rc with
    | none =>
      rw [hrc] at hfb
      simp [monitorResponse, fetchContentResponseDict] at hfb
    | some s =>
      rw [hrc] at hfb
      have hfb2 : contentFlags
          (statusFlags st (if pyTruthy (some s) then 200 else 0) t) s = fb := by
        simpa [monitorResponse, fetchContentResponseDict] using hfb
      have hs0 : (if pyTruthy (some s) then (200 : Int) else 0) = 200 ∨
          (if pyTruthy (some s) then (200 : Int) else 0) = 0 := by
        by_cases hp : pyTruthy (some s) <;> simp [hp]
      obtain ⟨k1, k2, k3, k4, k5⟩ := statusFlags_pipeline st t _ hs0
      have hps : (if pyTruthy (some s) then (200 : Int) else 0) = 200 →
          pyTruthy (some s) = true := by
        by_cases hp : pyTruthy (some s) <;> simp [hp]
      obtain ⟨e1, e2, e3, e4, e5⟩ := contentFlags_fields
        (statusFlags st (if pyTruthy (some s) then 200 else 0) t) s
      rw [hfb2] at e1 e2 e3 e4 e5
      refine ⟨?_, ?_, ?_, ?_, ?_⟩
      · rw [e1, k1]
      · intro hx
        rw [e5, k3] at hx
        simpa using hx
      · intro hx
        rw [e4, k2] at hx
        simpa using hx
      · intro hx
        rw [e2] at hx
        exact ⟨hps (k4 hx).1, (k4 hx).2⟩
      · intro hx
        rw [e3, Bool.or_eq_true] at hx
        rcases hx with hx1 | hx1
        · exact Or.inr ⟨hps (k5 hx1).1, (k5 hx1).2⟩
        · exact Or.inl hx1

/-- Witness for C8: a truthy benign fetch result at load time 1. -/
theorem c8_fetch_content_status_containment_witness :
    monitorResponse adaptSwapped
        (some (fetchContentResponseDict (some benignContent) 1))
        = .ok ⟨false, true, false, false, false⟩ ∧
    (⟨false, true, false, false, false⟩ : Feedback).retry_needed = false ∧
    ((⟨false, true, false, false, false⟩ : Feedback).speed_up = true →
      pyTruthy (some benignContent) = true ∧ (1 : ℚ) < adaptSwapped.adjustThresholdFast) :=
  ⟨rfl,
    ((c8_fetch_content_status_containment adaptSwapped (some benignContent) 1).2.2.2.2
      ⟨false, true, false, false, false⟩ rfl).1,
    ((c8_fetch_content_status_containment adaptSwapped (some benignContent) 1).2.2.2.2
      ⟨false, true, false, false, false⟩ rfl).2.2.2.1⟩


/-- Throttle state of a freshly constructed `ThrottleManager` with
`min_rate = 2`, `max_concurrent = 1`, constructed at time 0. -/
def thStC6 : ThState :=
  { minRate := 2, currentRate := 2, maxConcurrent := 1, requestCount := 0,
    lastRequestTime := 0, activeRequests := 0 }

/-- Two tasks both entering `limit_rate` at time 0. -/
def cfgC6 : ThConfig := { st := thStC6, time := 0, tasks := [.ready, .ready] }

/-- A legal cooperative schedule: both tasks pass the concurrency check and
enter the rate-delay sleep before either has incremented the counter; both
wake at time 2 and grant without re-checking. -/
def traceC6 : List ThStep :=
  [.tick 1, .run 0, .run 1, .tick 1, .run 0, .run 1]

/-- C6 counterexample: under interleaved `acquire` calls the schedule
`traceC6` is accepted by the semantics and ends with `active_requests = 2`
although `max_concurrent = 1`, and with both grants recorded at the same
instant (separation 0 < `current_rate` = 2): the rate-delay `await` sits
between the admission check and the increment, so neither the concurrency
bound nor the spacing bound holds under concurrency. -/
theorem c6_counterexample :
    (runSteps traceC6 cfgC6).map (fun c => (c.st.activeRequests, c.tasks))
        = some (2, [.granted 2, .granted 2]) ∧
    cfgC6.st.maxConcurrent = 1 ∧
    cfgC6.st.currentRate = 2 := by
  refine ⟨?_, rfl, rfl⟩
  norm_num [runSteps, traceC6, cfgC6, thStC6, execStep, grantNow, List.foldlM]

/-- C6 (amended): when an acquisition runs without interleaving
(`limitRateSeq`), a granted call increments the active count to at most
`max_concurrent`, the recorded grant time is at least `current_rate` after
the previously recorded grant, and the rate is unchanged; `update_rate`
clamps the rate to at least `min_rate`, and the rate never sits below
`min_rate` when it did not before.  Under interleaving the active count
can transiently exceed `max_concurrent` (see the counterexample) until the
poll loop re-detects the cap. -/
theorem c6_sequential_throttle (st st2 : ThState) (now g r : ℚ)
    (hmin : st.minRate ≤ st.currentRate)
    (h : limitRateSeq st now = some (st2, g)) :
    st2.activeRequests ≤ st.maxConcurrent ∧
    st.currentRate ≤ g - st.lastRequestTime ∧
    st2.lastRequestTime = g ∧
    st2.currentRate = st.currentRate ∧
    st.minRate ≤ st2.currentRate ∧
    st.minRate ≤ (updateRate st r).currentRate := by
  unfold limitRateSeq at h
  by_cases hc : st.maxConcurrent ≤ st.activeRequests
  · simp [hc] at h
  · rw [if_neg hc] at h
    dsimp only at h
    by_cases hw : now - st.lastRequestTime < st.currentRate
    · rw [if_pos hw] at h
      simp only [Option.some.injEq, Prod.mk.injEq] at h
      obtain ⟨hst2, hg⟩ := h
      subst hst2
      subst hg
      exact ⟨by simp [grantNow]; omega, by linarith, rfl, rfl, hmin,
        le_max_right _ _⟩
    · rw [if_neg hw] at h
      simp only [Option.some.injEq, Prod.mk.injEq] at h
      obtain ⟨hst2, hg⟩ := h
      subst hst2
      subst hg
      push_neg at hw
      exact ⟨by simp [grantNow]; omega, by linarith, rfl, rfl, hmin,
        le_max_right _ _⟩

/-- Witness for C6: a sequential grant from the fresh state at time 3. -/
theorem c6_sequential_throttle_witness :
    thStC6.minRate ≤ thStC6.currentRate ∧
    limitRateSeq thStC6 3 = some (grantNow thStC6 3, 3) ∧
    thStC6.currentRate ≤ 3 - thStC6.lastRequestTime :=
  ⟨le_refl 2,
    by norm_num [limitRateSeq, thStC6],
    (c6_sequential_throttle thStC6 (grantNow thStC6 3) 3 3 0 (le_refl 2)
      (by norm_num [limitRateSeq, thStC6])).2.1⟩


/-- Crawler state at task start: `AdaptiveManager` with `min_delay = 1`,
`max_delay = 5`, `adjust_threshold_slow = 2`, `adjust_threshold_fast = 0`,
`random_jitter = 1`, and the `BrowserService` throttle with
`min_rate = 1`, `max_concurrent = 5`, constructed at time 0. -/
def crawlC1 : CrawlState :=
  { adapt := { minDelay := 1, maxDelay := 5, currentDelay := 1,
               adjustThresholdSlow := 2, adjustThresholdFast := 0,
               randomJitter := 1, delayIncreased := 0, delayDecreased := 0 }
    throttle := { minRate := 1, currentRate := 1, maxConcurrent := 5,
                  requestCount := 0, lastRequestTime := 0, activeRequests := 0 } }

/-- A run of `process_single_url` in which every browser call succeeds,
the fetch returns a benign 67-character body, and `extract_article`
returns `None` (all extraction strategies failed) — a perfectly ordinary
failure mode. -/
def envC1 : TaskEnv :=
  { newContextOk := true, newPageOk := true, stealthOk := true, now := 0,
    nowStr := "2026-01-01 00:00:00", sendResult := some benignContent,
    loadTime := 1, adjJitter := 0, simulateOk := true,
    parseResult := some none, analyzeResult := some none }

/-- C1 evaluated at the failing input: when `extract_article` returns
`None`, the body raises "Failed to extract article content", and the
`except` handler then evaluates `parsed_data.get("title", "")` with
`parsed_data = None` (the `'parsed_data' in locals()` guard does not catch
a bound `None`), raising `AttributeError`.  No record at all is persisted
(`records = []`, in particular no "failed" record) and the exception
escapes the task (`raised = true`) into `asyncio.gather`, which terminates
the orchestrator loop of `process_urls`; only the `finally` cleanup still
runs. -/
theorem c1_handler_crash_on_none_parse :
    (processSingleUrl crawlC1 "https://news.example.com/a" 7 envC1).raised = true ∧
    (processSingleUrl crawlC1 "https://news.example.com/a" 7 envC1).records = [] ∧
    (processSingleUrl crawlC1 "https://news.example.com/a" 7 envC1).cleaned = true ∧
    (processSingleUrl crawlC1 "https://news.example.com/a" 7 envC1).sessionClosed = true ∧
    (processSingleUrl crawlC1 "https://news.example.com/a" 7 envC1).pageClosed = true ∧
    (processSingleUrl crawlC1 "https://news.example.com/a" 7 envC1).contextClosed = true :=
  ⟨rfl, rfl, rfl, rfl, rfl, rfl⟩

end News
